import Mathlib

set_option maxRecDepth 8000

/-!
Verification of the RustCommand simulation core (src/RustCommand/src/main.rs).

Modelling conventions:
* Every `f32` value of the program is embedded as an exact rational (`ℚ`).
  All arithmetic the simulation performs on these values is `+`, `-`, `*`,
  `/` and comparisons, which `ℚ` models exactly (rounding of `f32` is the
  only idealisation).
* `sin`/`cos` do not restrict to rational functions, so the direction vector
  `vec_from_angle` is abstracted as an explicit parameter
  `vfa : ℚ → ℚ × ℚ` of every definition that moves rockets; all theorems
  hold for every choice of it.  Concrete instances use `vfaDown`, the exact
  value of `vec_from_angle` at angle π.
* The comparison `dist.length() < interceptor.radius` (a square root) is
  embedded without the root: for `s ≥ 0`, `Real.sqrt s < r ↔ 0 < r ∧ s < r²`,
  which is how `hits` below is stated.
* The RNG is `oorandom::Rand32` (PCG32), a third-party dependency whose
  state transitions are embedded exactly over `Nat` with explicit `% 2^64`
  and `% 2^32`; `rand_float` is modelled as drawing the top mantissa bits
  of one `rand_u32` as a dyadic rational in `[0, 1)`, and `rand_range` as
  Lemire bounded generation with a rejection loop given explicit fuel
  (the fuel is irrelevant in this program: the range size is always 2,
  which divides 2^32, so the rejection loop never runs).
-/

structure Vec2 where
  x : ℚ
  y : ℚ
deriving DecidableEq, Repr

structure InputState where
  xaxis : ℚ
  yaxis : ℚ
  fire : Bool
deriving DecidableEq, Repr

/-- The tagged actor record of main.rs (lines 46-54). -/
structure Actor where
  pos : Vec2
  initial_pos : Vec2
  angle : ℚ
  life : ℚ
  elapsed : ℚ
  radius : ℚ
deriving DecidableEq, Repr

def GROUND_HEIGHT : ℚ := 150
def CURSOR_VEL : ℚ := 600
def CURSOR_WIDTH : ℚ := 20
def CURSOR_HEIGHT : ℚ := 5
def ROCKET_LIFE : ℚ := 1
def GROUND_LIFE : ℚ := 5
def INTERCEPTOR_BASE_RADIUS : ℚ := 20
def INTERCEPTOR_PERIOD : ℚ := 5
def ROCKET_VEL : ℚ := 80
def ROCKET_DELAY : ℚ := 4
def SHOT_TIMEOUT : ℚ := 1/2
def LEVEL_TIME : ℚ := 15

/-- The exact rational value of the f32 constant std::f32::consts::PI
(bit pattern 0x40490FDB). -/
def PI32 : ℚ := 13176795 / 4194304

def create_player_cursor : Actor :=
  { pos := ⟨0, 0⟩, initial_pos := ⟨0, 0⟩, angle := 0,
    life := GROUND_LIFE, elapsed := 0, radius := 0 }

def create_rocket : Actor :=
  { pos := ⟨0, 0⟩, initial_pos := ⟨0, 0⟩, angle := 0,
    life := ROCKET_LIFE, elapsed := 0, radius := 0 }

def create_interceptor : Actor :=
  { pos := ⟨0, 0⟩, initial_pos := ⟨0, 0⟩, angle := 0,
    life := ROCKET_LIFE, elapsed := INTERCEPTOR_PERIOD,
    radius := INTERCEPTOR_BASE_RADIUS }

/-- check_cursor_bound (main.rs lines 109-130): nudges an out-of-bounds
cursor one unit inward and reports whether the cursor was in bounds.  The
four conditions are tested in source order; at most one nudge fires. -/
def check_cursor_bound (actor : Actor) (x y : ℚ) : Actor × Bool :=
  let screen_x := x / 2
  let screen_y := y / 2
  if actor.pos.x + CURSOR_WIDTH > screen_x then
    ({ actor with pos := ⟨actor.pos.x - 1, actor.pos.y⟩ }, false)
  else if actor.pos.x < -screen_x then
    ({ actor with pos := ⟨actor.pos.x + 1, actor.pos.y⟩ }, false)
  else if actor.pos.y > screen_y then
    ({ actor with pos := ⟨actor.pos.x, actor.pos.y - 1⟩ }, false)
  else if actor.pos.y - CURSOR_HEIGHT < -screen_y + GROUND_HEIGHT then
    ({ actor with pos := ⟨actor.pos.x, actor.pos.y + 1⟩ }, false)
  else (actor, true)

/-- cursor_move (main.rs lines 133-137). -/
def cursor_move (actor : Actor) (x y : ℚ) (input : InputState) (dt : ℚ) : Actor :=
  let cb := check_cursor_bound actor x y
  if cb.2 then
    { cb.1 with pos := ⟨cb.1.pos.x + input.xaxis * CURSOR_VEL * dt,
                        cb.1.pos.y + input.yaxis * CURSOR_VEL * dt⟩ }
  else cb.1

/-- rocket_move (main.rs lines 140-142), with vec_from_angle abstracted
as the parameter vfa. -/
def rocket_move (vfa : ℚ → ℚ × ℚ) (actor : Actor) (dt : ℚ) : Actor :=
  { actor with pos := ⟨actor.pos.x + (vfa actor.angle).1 * ROCKET_VEL * dt,
                       actor.pos.y + (vfa actor.angle).2 * ROCKET_VEL * dt⟩ }

/-- interceptor_elapse (main.rs lines 146-154). -/
def interceptor_elapse (actor : Actor) (dt : ℚ) : Actor :=
  let e := actor.elapsed - dt * 3
  { actor with
      elapsed := e,
      radius := INTERCEPTOR_BASE_RADIUS * (-(((e - 5/2) * (e - 5/2)) / (5/2)) + 5/2) }

/-- The explosion-radius curve of main.rs line 152-153, as a function of
the elapsed countdown. -/
def radius_curve (e : ℚ) : ℚ :=
  INTERCEPTOR_BASE_RADIUS * (-(((e - 5/2) * (e - 5/2)) / (5/2)) + 5/2)

/-! ## The RNG: oorandom::Rand32 (PCG32) -/

structure Rand32 where
  state : Nat
  inc : Nat
deriving DecidableEq, Repr

def U64 : Nat := 2 ^ 64
def U32 : Nat := 2 ^ 32
def PCG32_MUL : Nat := 6364136223846793005
def PCG32_DEFAULT_INCREMENT : Nat := 1442695040888963407

/-- u32 rotate right by n (n is taken mod 32, as in Rust rotate_right). -/
def rotr32 (v n : Nat) : Nat :=
  let n := n % 32
  ((v >>> n) + (v % 2 ^ n) * 2 ^ (32 - n)) % U32

/-- One PCG32 step: the output u32 and the advanced generator. -/
def rand_u32 (r : Rand32) : Nat × Rand32 :=
  let oldstate := r.state
  let newstate := (oldstate * PCG32_MUL + r.inc) % U64
  let xorshifted := (((oldstate >>> 18) ^^^ oldstate) >>> 27) % U32
  let rot := oldstate >>> 59
  (rotr32 xorshifted rot, ⟨newstate, r.inc⟩)

/-- Rand32::new(seed) (used with seed 1337 at main.rs line 179): the PCG32
seeding procedure with the default increment. -/
def Rand32.new (seed : Nat) : Rand32 :=
  let inc := (PCG32_DEFAULT_INCREMENT * 2 + 1) % U64
  let r1 := (rand_u32 ⟨0, inc⟩).2
  (rand_u32 ⟨(r1.state + seed) % U64, inc⟩).2

/-- Rand32::rand_float: one u32 draw, its top mantissa bits scaled into
[0, 1) as an exact dyadic rational. -/
def rand_float (r : Rand32) : ℚ × Rand32 :=
  let u := rand_u32 r
  (((u.1 >>> 8 : Nat) : ℚ) / 2 ^ 24, u.2)

/-- The rejection loop of Rand32::rand_range, with explicit fuel. -/
def rr_loop : Nat → Nat → Nat → Nat → Rand32 → Nat × Rand32
  | 0, _, _, m, r => (m, r)
  | fuel + 1, range_size, threshold, m, r =>
    if m % U32 < threshold then
      let u := rand_u32 r
      rr_loop fuel range_size threshold (u.1 * range_size) u.2
    else (m, r)

/-- Rand32::rand_range(lo..hi) (Lemire bounded generation): one u32 draw,
plus the rejection loop when the first draw lands in the biased region. -/
def rand_range (r : Rand32) (lo hi : Nat) (fuel : Nat) : Nat × Rand32 :=
  let range_size := (hi - lo) % U32
  let u := rand_u32 r
  let m := u.1 * range_size
  if m % U32 < range_size then
    let threshold := ((U32 - range_size % U32) % U32) % range_size
    let l := rr_loop fuel range_size threshold m u.2
    ((l.1 >>> 32) + lo, l.2)
  else ((m >>> 32) + lo, u.2)

/-- Fuel given to the rand_range rejection loop inside the tick (provably
irrelevant there: the range size is always 2). -/
def rrFuel : Nat := 64

/-! ## MainState and its methods -/

structure MainState where
  player : Actor
  screen_width : ℚ
  screen_height : ℚ
  input : InputState
  rockets : List Actor
  interceptors : List Actor
  shot_timeout : ℚ
  rocket_delay : ℚ
  rng : Rand32
  level : Nat
  level_timer : ℚ
  score : Int
deriving DecidableEq, Repr

/-- MainState::handle_border_collisions (main.rs lines 204-225), one
rocket at a time: the updated rocket, player life and interceptor list. -/
def border_step (screen_x screen_y : ℚ)
    (acc : List Actor × ℚ × List Actor) (rocket : Actor) :
    List Actor × ℚ × List Actor :=
  let ground :=
    if rocket.pos.y < -screen_y + GROUND_HEIGHT then
      ({ rocket with life := 0 }, acc.2.1 - 1,
       acc.2.2 ++ [{ create_interceptor with pos := rocket.pos }])
    else (rocket, acc.2.1, acc.2.2)
  let r2 :=
    if ground.1.pos.x > screen_x ∨ ground.1.pos.x < -screen_x then
      { ground.1 with life := 0 }
    else ground.1
  (acc.1 ++ [r2], ground.2.1, ground.2.2)

def handle_border_collisions (s : MainState) : MainState :=
  let screen_x := s.screen_width / 2
  let screen_y := s.screen_height / 2
  let res := s.rockets.foldl (border_step screen_x screen_y)
    ([], s.player.life, s.interceptors)
  { s with rockets := res.1,
           player := { s.player with life := res.2.1 },
           interceptors := res.2.2 }

/-- The collision test of main.rs lines 231-232: Euclidean distance below
the interceptor's radius, stated without the square root (for s ≥ 0,
sqrt s < r iff 0 < r and s < r^2). -/
def hits (rocket interceptor : Actor) : Bool :=
  let dx := rocket.pos.x - interceptor.pos.x
  let dy := rocket.pos.y - interceptor.pos.y
  decide (dx * dx + dy * dy < interceptor.radius * interceptor.radius) &&
    decide (0 < interceptor.radius)

/-- The inner loop of MainState::handle_interceptions (main.rs lines
230-237) for one rocket: folds over the interceptors, killing the rocket
and adding the score bonus on every hit. -/
def intercept_fold (inters : List Actor) (r : Actor) (score : Int) : Actor × Int :=
  inters.foldl
    (fun p i => if hits p.1 i then ({ p.1 with life := 0 }, p.2 + 150) else p)
    (r, score)

/-- MainState::handle_interceptions (main.rs lines 228-240). -/
def handle_interceptions (s : MainState) : MainState :=
  let res := s.rockets.foldl
    (fun (acc : List Actor × Int) r =>
      let p := intercept_fold s.interceptors r acc.2
      (acc.1 ++ [p.1], p.2))
    ([], s.score)
  { s with rockets := res.1, score := res.2 }

/-- MainState::fire_interceptor (main.rs lines 243-249). -/
def fire_interceptor (s : MainState) : MainState :=
  { s with shot_timeout := SHOT_TIMEOUT,
           interceptors := s.interceptors ++
             [{ create_interceptor with pos := s.player.pos }] }

/-- The closure body of MainState::create_rockets (main.rs lines 258-270),
iterated: each rocket draws a start x, then a heading, threading the RNG
in index order. -/
def create_rockets_list (x y : ℚ) : Nat → Rand32 → List Actor × Rand32
  | 0, rng => ([], rng)
  | n + 1, rng =>
    let f1 := rand_float rng
    let start : Vec2 := ⟨f1.1 * x - x / 2, y / 2⟩
    let f2 := rand_float f1.2
    let angle := f2.1 * (1/2) * PI32 + (3/4) * PI32
    let rest := create_rockets_list x y n f2.2
    ({ create_rocket with pos := start, initial_pos := start, angle := angle }
       :: rest.1, rest.2)

/-- MainState::create_rockets (main.rs lines 252-272): resets the wave
cooldown and returns the new wave. -/
def MainState.create_rockets (s : MainState) (num : Nat) (x y : ℚ) :
    List Actor × MainState :=
  let w := create_rockets_list x y num s.rng
  (w.1, { s with rocket_delay := ROCKET_DELAY, rng := w.2 })

/-! ## One fixed-timestep tick (the body of the while loop in
MainState::update, main.rs lines 434-488) -/

/-- One simulation tick: the while-loop body of MainState::update
(main.rs lines 434-488), in source order.  seconds = 1/60. -/
def tick (vfa : ℚ → ℚ × ℚ) (s0 : MainState) : MainState :=
  let seconds : ℚ := 1 / 60
  let s1 := { s0 with level_timer := s0.level_timer - seconds }
  let s2 := if s1.level_timer ≤ 0 then
      { s1 with level := s1.level + 1, level_timer := LEVEL_TIME } else s1
  let s3 := { s2 with
      player := cursor_move s2.player s2.screen_width s2.screen_height s2.input seconds }
  let s4 := { s3 with shot_timeout := s3.shot_timeout - seconds }
  let s5 := if s4.input.fire = true ∧ s4.shot_timeout ≤ 0 then
      fire_interceptor s4 else s4
  let s6 := { s5 with rocket_delay := s5.rocket_delay - seconds }
  let nr := rand_range s6.rng (1 + s6.level) (3 + s6.level) rrFuel
  let s7 := { s6 with rng := nr.2 }
  let s8 := if s7.rocket_delay ≤ 0 then
      let w := s7.create_rockets nr.1 s7.screen_width s7.screen_height
      let t := w.2
      { t with rockets := t.rockets ++ w.1 }
    else s7
  let s9 := { s8 with rockets := s8.rockets.map (fun r => rocket_move vfa r seconds) }
  let s10 := { s9 with
      interceptors := s9.interceptors.map (fun i => interceptor_elapse i seconds) }
  let s11 := handle_border_collisions s10
  let s12 := handle_interceptions s11
  { s12 with rockets := s12.rockets.filter (fun r => decide (0 < r.life)),
             interceptors := s12.interceptors.filter (fun i => decide (0 < i.elapsed)) }

/-- End-of-tick pruning (main.rs lines 481-482). -/
def prune_dead (s : MainState) : MainState :=
  { s with rockets := s.rockets.filter (fun r => decide (0 < r.life)),
           interceptors := s.interceptors.filter (fun i => decide (0 < i.elapsed)) }

/-- The tick prefix up to and including the fire-input step (main.rs lines
437-455): level timer, cursor movement, shot timeout, firing. -/
def afterFire (s0 : MainState) : MainState :=
  let seconds : ℚ := 1 / 60
  let s1 := { s0 with level_timer := s0.level_timer - seconds }
  let s2 := if s1.level_timer ≤ 0 then
      { s1 with level := s1.level + 1, level_timer := LEVEL_TIME } else s1
  let s3 := { s2 with
      player := cursor_move s2.player s2.screen_width s2.screen_height s2.input seconds }
  let s4 := { s3 with shot_timeout := s3.shot_timeout - seconds }
  if s4.input.fire = true ∧ s4.shot_timeout ≤ 0 then fire_interceptor s4 else s4

/-- The tick prefix up to and including kinematics (main.rs lines 437-475):
everything before the two collision passes and pruning. -/
def afterAging (vfa : ℚ → ℚ × ℚ) (s0 : MainState) : MainState :=
  let seconds : ℚ := 1 / 60
  let s5 := afterFire s0
  let s6 := { s5 with rocket_delay := s5.rocket_delay - seconds }
  let nr := rand_range s6.rng (1 + s6.level) (3 + s6.level) rrFuel
  let s7 := { s6 with rng := nr.2 }
  let s8 := if s7.rocket_delay ≤ 0 then
      let w := s7.create_rockets nr.1 s7.screen_width s7.screen_height
      let t := w.2
      { t with rockets := t.rockets ++ w.1 }
    else s7
  let s9 := { s8 with rockets := s8.rockets.map (fun r => rocket_move vfa r seconds) }
  { s9 with
      interceptors := s9.interceptors.map (fun i => interceptor_elapse i seconds) }

/-- The fixed-timestep accumulator loop of MainState::update: runs the
given number of accumulated ticks.  ggez's Context::request_quit only
raises a flag read after update returns, so the loop body cannot stop the
remaining accumulated ticks; the flag is the Bool. -/
def runTicks (vfa : ℚ → ℚ × ℚ) : Nat → MainState → Bool → MainState × Bool
  | 0, s, quit => (s, quit)
  | n + 1, s, quit =>
    let s' := tick vfa s
    runTicks vfa n s' (quit || decide (s'.player.life ≤ 0))

/-- n ticks, no quit bookkeeping. -/
def tickN (vfa : ℚ → ℚ × ℚ) : Nat → MainState → MainState
  | 0, s => s
  | n + 1, s => tickN vfa n (tick vfa s)

/-- Ticks with a fresh input state injected before each one (the input
collaborator may rewrite the input between ticks). -/
def runInputs (vfa : ℚ → ℚ × ℚ) (s : MainState) : List InputState → MainState
  | [] => s
  | i :: is => runInputs vfa (tick vfa { s with input := i }) is

/-- The firing condition as the tick evaluates it, in terms of the
tick-entry state: the fire flag, and the shot timeout after this tick's
decrement (main.rs lines 451-453). -/
def fire_cond (s : MainState) : Prop :=
  s.input.fire = true ∧ s.shot_timeout - 1 / 60 ≤ 0

instance (s : MainState) : Decidable (fire_cond s) := by
  unfold fire_cond; infer_instance

/-- The exact value of vec_from_angle at angle π: (sin π, cos π) = (0, -1).
Used to instantiate the abstract direction function on concrete states. -/
def vfaDown : ℚ → ℚ × ℚ := fun _ => (0, -1)

/-! ## Cursor movement: the two-phase policy and the bounds claim -/

/-- Modelled from the spec: the claimed cursor bounds, x within
[-screenWidth/2, screenWidth/2 - cursorWidth] and y within
[groundline + cursorHeight, screenHeight/2], where the ground line is
-screenHeight/2 + GROUND_HEIGHT. -/
def cursor_in_bounds (a : Actor) (x y : ℚ) : Prop :=
  -(x / 2) ≤ a.pos.x ∧ a.pos.x ≤ x / 2 - CURSOR_WIDTH ∧
    -(y / 2) + GROUND_HEIGHT + CURSOR_HEIGHT ≤ a.pos.y ∧ a.pos.y ≤ y / 2

instance (a : Actor) (x y : ℚ) : Decidable (cursor_in_bounds a x y) := by
  unfold cursor_in_bounds; infer_instance

/-- Modelled from the spec: the check-then-maybe-move policy as the spec
words it.  The boundary conditions are evaluated in order; the first that
fires yields a one-unit corrective step inward and no intentional
movement; when none fires, displacement is axis * velocity * dt per axis. -/
def cursor_move_policy (a : Actor) (x y : ℚ) (input : InputState) (dt : ℚ) : Actor :=
  if a.pos.x + CURSOR_WIDTH > x / 2 then
    { a with pos := ⟨a.pos.x - 1, a.pos.y⟩ }
  else if a.pos.x < -(x / 2) then
    { a with pos := ⟨a.pos.x + 1, a.pos.y⟩ }
  else if a.pos.y > y / 2 then
    { a with pos := ⟨a.pos.x, a.pos.y - 1⟩ }
  else if a.pos.y - CURSOR_HEIGHT < -(y / 2) + GROUND_HEIGHT then
    { a with pos := ⟨a.pos.x, a.pos.y + 1⟩ }
  else
    { a with pos := ⟨a.pos.x + input.xaxis * CURSOR_VEL * dt,
                     a.pos.y + input.yaxis * CURSOR_VEL * dt⟩ }

/-- Concrete cursor for the C1 counterexample: in bounds for a 1280x760
screen, sitting exactly at the right movement limit. -/
def c1Actor : Actor :=
  { pos := ⟨620, 0⟩, initial_pos := ⟨0, 0⟩, angle := 0,
    life := GROUND_LIFE, elapsed := 0, radius := 0 }

/-- Rocket below the ground line (the first branch of
handle_border_collisions). -/
def ground_hit (screen_y : ℚ) (r : Actor) : Bool :=
  decide (r.pos.y < -screen_y + GROUND_HEIGHT)

/-- Rocket beyond either side of the screen (the second branch of
handle_border_collisions). -/
def side_hit (screen_x : ℚ) (r : Actor) : Bool :=
  decide (r.pos.x > screen_x) || decide (r.pos.x < -screen_x)

/-- A quiet baseline state: no actors, no input, cooldowns idle.  The RNG
state is arbitrary (claims about concrete states do not depend on the
seed). -/
def baseState : MainState :=
  { player := create_player_cursor, screen_width := 1280, screen_height := 760,
    input := ⟨0, 0, false⟩, rockets := [], interceptors := [],
    shot_timeout := 0, rocket_delay := ROCKET_DELAY, rng := ⟨0, 1⟩,
    level := 1, level_timer := LEVEL_TIME, score := 0 }

/-- One live rocket sitting exactly on two interceptors (C2). -/
def c2State : MainState :=
  { baseState with rockets := [create_rocket],
                   interceptors := [create_interceptor, create_interceptor] }

/-- A rocket both beyond the right edge and below the ground line (C5). -/
def c5Rocket : Actor := { create_rocket with pos := ⟨700, -240⟩ }

def c5State : MainState := { baseState with rockets := [c5Rocket] }

/-- An interceptor mid-life, for the C3 tick invariant witness. -/
def c3Inter : Actor := { create_interceptor with elapsed := 3 }

def c3TickState : MainState :=
  { baseState with interceptors := [c3Inter], rocket_delay := 100 }

/-- The C3 witness interceptor after one tick's aging. -/
def c3Aged : Actor := interceptor_elapse c3Inter (1 / 60)

/-- A player away from the origin, for the C3 spawn counterexample. -/
def c3FireState : MainState :=
  { baseState with player := { create_player_cursor with pos := ⟨3, 7⟩ } }

/-- The level used for the wave-size draw, after the level-timer step. -/
def level_after (s : MainState) : Nat :=
  if s.level_timer - 1 / 60 ≤ 0 then s.level + 1 else s.level

/-- The interceptor a firing tick appends: a fresh interceptor at the
player's position as of this tick (after cursor movement). -/
def player_shot (s : MainState) : Actor :=
  { create_interceptor with
      pos := (cursor_move s.player s.screen_width s.screen_height s.input (1 / 60)).pos }

/-- A state whose tick fires: fire flag set, shot timeout expired. -/
def c9FireState : MainState :=
  { baseState with input := ⟨0, 0, true⟩, shot_timeout := 0, rocket_delay := 100 }

/-- The observable data of a spawned wave: start position, tracer origin
and heading of every rocket. -/
def wave_data (l : List Actor) : List (Vec2 × Vec2 × ℚ) :=
  l.map (fun a => (a.pos, a.initial_pos, a.angle))

/-- A sequence of create_rockets calls (count, width, height), threading
the state; returns each wave's observable data. -/
def spawn_seq (s : MainState) : List (Nat × ℚ × ℚ) → List (List (Vec2 × Vec2 × ℚ))
  | [] => []
  | c :: cs =>
    let w := s.create_rockets c.1 c.2.1 c.2.2
    wave_data w.1 :: spawn_seq w.2 cs

/-- Rocket A: already below the ground line at tick 1. -/
def c4RocketA : Actor := { create_rocket with pos := ⟨0, -231⟩ }

/-- Rocket B: crosses the ground line only at tick 2, far from A. -/
def c4RocketB : Actor := { create_rocket with pos := ⟨600, -228⟩ }

/-- Player with one life left and both rockets incoming. -/
def c4State : MainState :=
  { baseState with player := { create_player_cursor with life := 1 },
                   rockets := [c4RocketA, c4RocketB], rocket_delay := 100 }

/-- When all four boundary conditions fail, the bound check passes and
leaves the cursor untouched. -/
theorem check_cursor_bound_pass (a : Actor) (x y : ℚ)
    (h1 : ¬ a.pos.x + CURSOR_WIDTH > x / 2) (h2 : ¬ a.pos.x < -(x / 2))
    (h3 : ¬ a.pos.y > y / 2)
    (h4 : ¬ a.pos.y - CURSOR_HEIGHT < -(y / 2) + GROUND_HEIGHT) :
    check_cursor_bound a x y = (a, true) := by
  unfold check_cursor_bound
  rw [if_neg h1, if_neg h2, if_neg h3, if_neg h4]

/-- C8: cursor_move implements the two-phase check-then-maybe-move policy
exactly: a tick that finds the cursor out of bounds applies only a
one-unit inward step (and ignores the input entirely), and a tick with
the cursor in bounds applies axis * CURSOR_VEL * dt per axis. -/
theorem cursor_move_two_phase (a : Actor) (x y : ℚ) (input : InputState) (dt : ℚ) :
    cursor_move a x y input dt = cursor_move_policy a x y input dt := by
  unfold cursor_move cursor_move_policy check_cursor_bound
  by_cases h1 : a.pos.x + CURSOR_WIDTH > x / 2
  · simp [h1]
  · by_cases h2 : a.pos.x < -(x / 2)
    · simp [h1, h2]
    · by_cases h3 : a.pos.y > y / 2
      · simp [h1, h2, h3]
      · by_cases h4 : a.pos.y - CURSOR_HEIGHT < -(y / 2) + GROUND_HEIGHT
        · simp [h1, h2, h3, h4]
        · simp [h1, h2, h3, h4]

/-- C1 counterexample: from the in-bounds position x = 620 on a 1280x760
screen, one cursor_move with full right input and dt = 1/60 lands at
x = 630 > screenWidth/2 - cursorWidth = 620, outside the claimed bounds. -/
theorem cursor_move_leaves_bounds :
    cursor_in_bounds c1Actor 1280 760 ∧
      ¬ cursor_in_bounds (cursor_move c1Actor 1280 760 ⟨1, 0, false⟩ (1 / 60)) 1280 760 := by
  constructor
  · norm_num [cursor_in_bounds, c1Actor, CURSOR_WIDTH, CURSOR_HEIGHT, GROUND_HEIGHT]
  · norm_num [cursor_in_bounds, cursor_move, check_cursor_bound, c1Actor,
      CURSOR_WIDTH, CURSOR_HEIGHT, GROUND_HEIGHT, CURSOR_VEL]

/-- C1 amended: from any in-bounds position, with axes in [-1, 1] and
dt ≥ 0, one cursor_move stays within the claimed bounds enlarged by
CURSOR_VEL * dt on each side (the claimed bounds themselves can be
exceeded by up to CURSOR_VEL * dt, as the counterexample shows). -/
theorem cursor_move_near_bounds (a : Actor) (x y : ℚ) (input : InputState) (dt : ℚ)
    (hin : cursor_in_bounds a x y)
    (hx : |input.xaxis| ≤ 1) (hy : |input.yaxis| ≤ 1) (hdt : 0 ≤ dt) :
    -(x / 2) - CURSOR_VEL * dt ≤ (cursor_move a x y input dt).pos.x ∧
      (cursor_move a x y input dt).pos.x ≤ x / 2 - CURSOR_WIDTH + CURSOR_VEL * dt ∧
      -(y / 2) + GROUND_HEIGHT + CURSOR_HEIGHT - CURSOR_VEL * dt ≤
        (cursor_move a x y input dt).pos.y ∧
      (cursor_move a x y input dt).pos.y ≤ y / 2 + CURSOR_VEL * dt := by
  obtain ⟨hb1, hb2, hb3, hb4⟩ := hin
  obtain ⟨hx1, hx2⟩ := abs_le.mp hx
  obtain ⟨hy1, hy2⟩ := abs_le.mp hy
  have hpass : check_cursor_bound a x y = (a, true) :=
    check_cursor_bound_pass a x y (by linarith) (by linarith) (by linarith)
      (by linarith)
  have hmove : cursor_move a x y input dt =
      { a with pos := ⟨a.pos.x + input.xaxis * CURSOR_VEL * dt,
                       a.pos.y + input.yaxis * CURSOR_VEL * dt⟩ } := by
    simp only [cursor_move, hpass]
    simp
  rw [hmove]
  have hv : (0 : ℚ) ≤ CURSOR_VEL * dt := by
    have : (0 : ℚ) ≤ CURSOR_VEL := by norm_num [CURSOR_VEL]
    positivity
  have l1 : input.xaxis * CURSOR_VEL * dt ≤ CURSOR_VEL * dt := by
    have := mul_le_mul_of_nonneg_right hx2 hv
    calc input.xaxis * CURSOR_VEL * dt = input.xaxis * (CURSOR_VEL * dt) := by ring
    _ ≤ 1 * (CURSOR_VEL * dt) := this
    _ = CURSOR_VEL * dt := by ring
  have l2 : -(CURSOR_VEL * dt) ≤ input.xaxis * CURSOR_VEL * dt := by
    have := mul_le_mul_of_nonneg_right hx1 hv
    calc -(CURSOR_VEL * dt) = -1 * (CURSOR_VEL * dt) := by ring
    _ ≤ input.xaxis * (CURSOR_VEL * dt) := this
    _ = input.xaxis * CURSOR_VEL * dt := by ring
  have l3 : input.yaxis * CURSOR_VEL * dt ≤ CURSOR_VEL * dt := by
    have := mul_le_mul_of_nonneg_right hy2 hv
    calc input.yaxis * CURSOR_VEL * dt = input.yaxis * (CURSOR_VEL * dt) := by ring
    _ ≤ 1 * (CURSOR_VEL * dt) := this
    _ = CURSOR_VEL * dt := by ring
  have l4 : -(CURSOR_VEL * dt) ≤ input.yaxis * CURSOR_VEL * dt := by
    have := mul_le_mul_of_nonneg_right hy1 hv
    calc -(CURSOR_VEL * dt) = -1 * (CURSOR_VEL * dt) := by ring
    _ ≤ input.yaxis * (CURSOR_VEL * dt) := this
    _ = input.yaxis * CURSOR_VEL * dt := by ring
  refine ⟨by simp; linarith, by simp; linarith, by simp; linarith, by simp; linarith⟩

/-- Witness for the amended C1 bound at a concrete in-bounds start. -/
theorem cursor_move_near_bounds_witness :
    -(1280 / 2 : ℚ) - CURSOR_VEL * (1 / 60) ≤
      (cursor_move c1Actor 1280 760 ⟨1, 0, false⟩ (1 / 60)).pos.x := by
  exact (cursor_move_near_bounds c1Actor 1280 760 ⟨1, 0, false⟩ (1 / 60)
    (by norm_num [cursor_in_bounds, c1Actor, CURSOR_WIDTH, CURSOR_HEIGHT, GROUND_HEIGHT])
    (by norm_num) (by norm_num) (by norm_num)).1

/-! ## Characterizing the two collision passes -/

/-- The collision test only reads positions and the radius, so killing a
rocket does not change what it collides with. -/
theorem hits_set_life (r i : Actor) : hits { r with life := 0 } i = hits r i := rfl

/-- What one border_step does, as a function of the two hit tests. -/
theorem border_step_eq (sx sy : ℚ) (acc : List Actor × ℚ × List Actor) (r : Actor) :
    border_step sx sy acc r =
      (acc.1 ++ [if ground_hit sy r || side_hit sx r then { r with life := 0 } else r],
       acc.2.1 - (if ground_hit sy r then 1 else 0),
       acc.2.2 ++ (if ground_hit sy r then [{ create_interceptor with pos := r.pos }] else [])) := by
  unfold border_step ground_hit side_hit
  by_cases hg : r.pos.y < -sy + GROUND_HEIGHT <;>
    by_cases h1 : r.pos.x > sx <;>
      by_cases h2 : r.pos.x < -sx <;>
        simp [hg, h1, h2]

/-- The border fold over any rocket list, with general accumulator. -/
theorem border_fold_eq (sx sy : ℚ) (rs done : List Actor) (plife : ℚ)
    (inters : List Actor) :
    rs.foldl (border_step sx sy) (done, plife, inters) =
      (done ++ rs.map (fun r =>
         if ground_hit sy r || side_hit sx r then { r with life := 0 } else r),
       plife - ((rs.filter (ground_hit sy)).length : ℚ),
       inters ++ (rs.filter (ground_hit sy)).map
         (fun r => { create_interceptor with pos := r.pos })) := by
  induction rs generalizing done plife inters with
  | nil => simp
  | cons r rs ih =>
    rw [List.foldl_cons, border_step_eq]
    rw [ih]
    by_cases hg : ground_hit sy r
    · simp [hg, List.filter_cons, List.append_assoc]
      ring
    · simp [hg, List.filter_cons]

/-- handle_border_collisions, characterized: every rocket below the
ground line or out the side is killed, the player loses one life per
ground hit, and one explosion interceptor is appended per ground hit (at
that rocket's position); nothing else changes. -/
theorem handle_border_collisions_eq (s : MainState) :
    handle_border_collisions s =
      { s with
          rockets := s.rockets.map (fun r =>
            if ground_hit (s.screen_height / 2) r || side_hit (s.screen_width / 2) r then
              { r with life := 0 } else r),
          player := { s.player with life := s.player.life -
            ((s.rockets.filter (ground_hit (s.screen_height / 2))).length : ℚ) },
          interceptors := s.interceptors ++
            (s.rockets.filter (ground_hit (s.screen_height / 2))).map
              (fun r => { create_interceptor with pos := r.pos }) } := by
  simp only [handle_border_collisions]
  rw [border_fold_eq]
  simp

/-- The inner interception fold for one rocket, characterized: the rocket
dies iff some interceptor registers a hit, and the score rises by the
bonus once per hitting interceptor. -/
theorem intercept_fold_eq (inters : List Actor) (r : Actor) (sc : Int) :
    intercept_fold inters r sc =
      (if inters.any (fun i => hits r i) then { r with life := 0 } else r,
       sc + 150 * ((inters.filter (fun i => hits r i)).length : Int)) := by
  induction inters generalizing r sc with
  | nil => simp [intercept_fold]
  | cons i is ih =>
    unfold intercept_fold at ih ⊢
    rw [List.foldl_cons]
    by_cases h : hits r i
    · simp only [h, if_true]
      rw [ih]
      have hrw : ∀ j : Actor, hits { r with life := 0 } j = hits r j := fun j => rfl
      simp only [hrw]
      simp only [List.any_cons, h, List.filter_cons, Bool.true_or, if_true]
      simp [ite_self]
      ring
    · simp only [h, if_false]
      rw [ih]
      simp only [List.any_cons, List.filter_cons, h]
      simp

/-- The outer interception fold over the rockets, with general
accumulator. -/
theorem interceptions_fold_eq (inters rs done : List Actor) (sc : Int) :
    rs.foldl (fun (acc : List Actor × Int) r =>
        let p := intercept_fold inters r acc.2
        (acc.1 ++ [p.1], p.2)) (done, sc) =
      (done ++ rs.map (fun r =>
         if inters.any (fun i => hits r i) then { r with life := 0 } else r),
       sc + 150 * (rs.map (fun r =>
         ((inters.filter (fun i => hits r i)).length : Int))).sum) := by
  induction rs generalizing done sc with
  | nil => simp
  | cons r rs ih =>
    simp only [List.foldl_cons]
    rw [ih]
    rw [intercept_fold_eq]
    simp [List.append_assoc]
    ring

/-- handle_interceptions, characterized: a rocket's life is zeroed iff
some interceptor's radius covers it (idempotently), the score rises by
the bonus once per (rocket, interceptor) hitting pair, and interceptors
and player are untouched. -/
theorem handle_interceptions_eq (s : MainState) :
    handle_interceptions s =
      { s with
          rockets := s.rockets.map (fun r =>
            if s.interceptors.any (fun i => hits r i) then { r with life := 0 } else r),
          score := s.score + 150 * (s.rockets.map (fun r =>
            ((s.interceptors.filter (fun i => hits r i)).length : Int))).sum } := by
  unfold handle_interceptions
  rw [interceptions_fold_eq]
  simp

/-! ## C2: interception pass -/

/-- C2 counterexample: one rocket overlapped by two interceptors in the
same pass is killed once, but the score rises by the bonus twice (300),
not "exactly once per such rocket" (150). -/
theorem interceptions_score_per_pair_cx :
    hits create_rocket create_interceptor = true ∧
    (handle_interceptions c2State).rockets = [{ create_rocket with life := 0 }] ∧
    c2State.score = 0 ∧
    (handle_interceptions c2State).score = 300 ∧
    (handle_interceptions c2State).score ≠ c2State.score + 150 := by
  have hcc : hits create_rocket create_interceptor = true := by
    norm_num [hits, create_rocket, create_interceptor, INTERCEPTOR_BASE_RADIUS,
      INTERCEPTOR_PERIOD, ROCKET_LIFE]
  have hsc : (handle_interceptions c2State).score = 300 := by
    rw [handle_interceptions_eq]
    simp [c2State, baseState, hcc]
  refine ⟨hcc, ?_, rfl, hsc, ?_⟩
  · rw [handle_interceptions_eq]
    simp [c2State, baseState, hcc]
  · rw [hsc]
    norm_num [c2State, baseState]

/-- C2 amended: in one interception pass every rocket within some
interceptor's radius ends with life = 0 (idempotently, so overlapping
several interceptors has no further effect on life), the score rises by
the fixed bonus once per (rocket, interceptor) pair within radius - not
once per rocket - and the interceptors and player are untouched. -/
theorem interceptions_kill_and_score (s : MainState) :
    ((handle_interceptions s).rockets = s.rockets.map (fun r =>
       if s.interceptors.any (fun i => hits r i) then { r with life := 0 } else r)) ∧
    (handle_interceptions s).score = s.score + 150 * (s.rockets.map (fun r =>
       ((s.interceptors.filter (fun i => hits r i)).length : Int))).sum ∧
    (handle_interceptions s).interceptors = s.interceptors ∧
    (handle_interceptions s).player = s.player := by
  rw [handle_interceptions_eq]
  exact ⟨rfl, rfl, rfl, rfl⟩

/-! ## C5: border-collision pass -/

/-- C5 counterexample: a rocket that is past the side AND below the
ground line still damages the player and spawns an explosion, against
the claim that side-exited rockets never change the player's life or
spawn an explosion. -/
theorem border_side_despawn_cx :
    side_hit (c5State.screen_width / 2) c5Rocket = true ∧
    (handle_border_collisions c5State).rockets = [{ c5Rocket with life := 0 }] ∧
    (handle_border_collisions c5State).player.life ≠ c5State.player.life ∧
    (handle_border_collisions c5State).player.life = GROUND_LIFE - 1 ∧
    (handle_border_collisions c5State).interceptors ≠ c5State.interceptors ∧
    (handle_border_collisions c5State).interceptors =
      [{ create_interceptor with pos := c5Rocket.pos }] := by
  have hside : side_hit (c5State.screen_width / 2) c5Rocket = true := by
    norm_num [side_hit, c5Rocket, c5State, baseState, create_rocket]
  have hground : ground_hit (c5State.screen_height / 2) c5Rocket = true := by
    norm_num [ground_hit, c5Rocket, c5State, baseState, create_rocket, GROUND_HEIGHT]
  have hlife : (handle_border_collisions c5State).player.life = GROUND_LIFE - 1 := by
    rw [handle_border_collisions_eq]
    simp only [c5State, baseState] at hground ⊢
    simp [hground, GROUND_LIFE, create_player_cursor]
  have hint : (handle_border_collisions c5State).interceptors =
      [{ create_interceptor with pos := c5Rocket.pos }] := by
    rw [handle_border_collisions_eq]
    simp only [c5State, baseState] at hground ⊢
    simp [hground]
  refine ⟨hside, ?_, ?_, hlife, ?_, hint⟩
  · rw [handle_border_collisions_eq]
    simp only [c5State, baseState] at hside hground ⊢
    simp [hside, hground]
  · rw [hlife]
    norm_num [c5State, baseState, create_player_cursor, GROUND_LIFE]
  · rw [hint]
    simp [c5State, baseState]

/-- C5 amended: after one border pass, every rocket below the ground line
or past a side has life 0; the player loses exactly one life per rocket
below the ground line, and one explosion interceptor is appended at each
such rocket's (unchanged) position; a rocket past the side leaves the
player's life and the explosions untouched unless it is also below the
ground line, in which case the ground-impact effects apply as well. -/
theorem border_collisions_effects (s : MainState) :
    ((handle_border_collisions s).rockets = s.rockets.map (fun r =>
       if ground_hit (s.screen_height / 2) r || side_hit (s.screen_width / 2) r then
         { r with life := 0 } else r)) ∧
    (handle_border_collisions s).player.life = s.player.life -
      ((s.rockets.filter (ground_hit (s.screen_height / 2))).length : ℚ) ∧
    (handle_border_collisions s).interceptors = s.interceptors ++
      (s.rockets.filter (ground_hit (s.screen_height / 2))).map
        (fun r => { create_interceptor with pos := r.pos }) ∧
    (handle_border_collisions s).score = s.score := by
  rw [handle_border_collisions_eq]
  exact ⟨rfl, rfl, rfl, rfl⟩

/-! ## C6: pruning strictly after both collision passes -/

/-- The tick factors as: everything up to aging, then the border pass,
then the interception pass, then pruning - in that order. -/
theorem tick_decomp (vfa : ℚ → ℚ × ℚ) (s : MainState) :
    tick vfa s =
      prune_dead (handle_interceptions (handle_border_collisions (afterAging vfa s))) := rfl

/-- C6: pruning happens only after both collision passes of the tick:
the tick is the prune of the interception pass of the border pass of the
aged state; neither pass removes an element (the border pass keeps every
rocket, the interception pass keeps every rocket and every interceptor,
so an interceptor whose elapsed crossed zero during this tick's aging
still participates in the interception checks and is removed only by the
final prune). -/
theorem prune_only_after_passes :
    (∀ vfa s, tick vfa s =
       prune_dead (handle_interceptions (handle_border_collisions (afterAging vfa s)))) ∧
    (∀ t : MainState, (handle_interceptions t).interceptors = t.interceptors) ∧
    (∀ t : MainState, (handle_interceptions t).rockets.length = t.rockets.length) ∧
    (∀ t : MainState, (handle_border_collisions t).rockets.length = t.rockets.length) ∧
    (∀ t : MainState, (prune_dead t).interceptors =
       t.interceptors.filter (fun i => decide (0 < i.elapsed))) := by
  refine ⟨tick_decomp, fun t => rfl, fun t => ?_, fun t => ?_, fun t => rfl⟩
  · rw [handle_interceptions_eq]
    simp
  · rw [handle_border_collisions_eq]
    simp

/-! ## C3: the radius is a pure function of elapsed -/

/-- After any aging update, the stored radius is exactly the curve at the
post-update elapsed. -/
theorem interceptor_elapse_radius (a : Actor) (dt : ℚ) :
    (interceptor_elapse a dt).radius = radius_curve (interceptor_elapse a dt).elapsed := rfl

/-- C3 counterexample: an interceptor fired this instant carries
radius = INTERCEPTOR_BASE_RADIUS = 20, while the claimed formula at its
elapsed (= INTERCEPTOR_PERIOD) gives 0; so the claim fails immediately
after spawning, before the first aging update. -/
theorem interceptor_spawn_breaks_curve_cx :
    (fire_interceptor c3FireState).interceptors =
      [{ create_interceptor with pos := (⟨3, 7⟩ : Vec2) }] ∧
    ({ create_interceptor with pos := (⟨3, 7⟩ : Vec2) } : Actor).radius = 20 ∧
    radius_curve ({ create_interceptor with pos := (⟨3, 7⟩ : Vec2) } : Actor).elapsed = 0 ∧
    ({ create_interceptor with pos := (⟨3, 7⟩ : Vec2) } : Actor).radius ≠
      radius_curve ({ create_interceptor with pos := (⟨3, 7⟩ : Vec2) } : Actor).elapsed := by
  refine ⟨rfl, ?_, ?_, ?_⟩
  · norm_num [create_interceptor, INTERCEPTOR_BASE_RADIUS]
  · norm_num [create_interceptor, radius_curve, INTERCEPTOR_BASE_RADIUS,
      INTERCEPTOR_PERIOD]
  · norm_num [create_interceptor, radius_curve, INTERCEPTOR_BASE_RADIUS,
      INTERCEPTOR_PERIOD]

/-- C3 amended: the radius equals the curve at the current elapsed after
every aging update, and interceptors are spawned with radius =
INTERCEPTOR_BASE_RADIUS and elapsed = INTERCEPTOR_PERIOD (which the
curve maps to 0, so the invariant only begins to hold at the first
update); hence after any tick, every stored interceptor either satisfies
radius = radius_curve elapsed or is a just-spawned explosion still
carrying the base radius. -/
theorem radius_pure_in_elapsed :
    (∀ a dt, (interceptor_elapse a dt).radius =
       radius_curve (interceptor_elapse a dt).elapsed) ∧
    create_interceptor.radius = INTERCEPTOR_BASE_RADIUS ∧
    create_interceptor.elapsed = INTERCEPTOR_PERIOD ∧
    radius_curve INTERCEPTOR_PERIOD = 0 ∧
    (∀ vfa s i, i ∈ (tick vfa s).interceptors →
       i.radius = radius_curve i.elapsed ∨
         (i.radius = INTERCEPTOR_BASE_RADIUS ∧ i.elapsed = INTERCEPTOR_PERIOD)) := by
  refine ⟨interceptor_elapse_radius, rfl, rfl, ?_, ?_⟩
  · norm_num [radius_curve, INTERCEPTOR_BASE_RADIUS, INTERCEPTOR_PERIOD]
  · intro vfa s i hi
    rw [tick_decomp] at hi
    have hproj : (prune_dead (handle_interceptions
        (handle_border_collisions (afterAging vfa s)))).interceptors =
        ((handle_border_collisions (afterAging vfa s)).interceptors).filter
          (fun j => decide (0 < j.elapsed)) := rfl
    rw [hproj] at hi
    have hi2 := List.mem_filter.mp hi
    rw [handle_border_collisions_eq] at hi2
    have hi3 : i ∈ (afterAging vfa s).interceptors ++
        ((afterAging vfa s).rockets.filter
          (ground_hit ((afterAging vfa s).screen_height / 2))).map
          (fun r => { create_interceptor with pos := r.pos }) := hi2.1
    rcases List.mem_append.mp hi3 with hmem | hmem
    · obtain ⟨L, hL⟩ : ∃ L : List Actor, (afterAging vfa s).interceptors =
          L.map (fun j => interceptor_elapse j (1 / 60)) := ⟨_, rfl⟩
      rw [hL] at hmem
      obtain ⟨j, _, hj⟩ := List.mem_map.mp hmem
      left
      rw [← hj]
      exact interceptor_elapse_radius j (1 / 60)
    · obtain ⟨r, _, hr⟩ := List.mem_map.mp hmem
      right
      rw [← hr]
      exact ⟨rfl, rfl⟩

/-! ## rand_range for ranges of size 2, and tick projections -/

/-- The PCG32 output is a u32. -/
theorem rand_u32_lt (r : Rand32) : (rand_u32 r).1 < U32 := by
  unfold rand_u32 rotr32
  simp only []
  exact Nat.mod_lt _ (by norm_num [U32])

/-- A zero rejection threshold ends the loop at once, whatever the fuel. -/
theorem rr_loop_thr0 (fuel range_size m : Nat) (r : Rand32) :
    rr_loop fuel range_size 0 m r = (m, r) := by
  cases fuel <;> simp [rr_loop]

/-- For a range of size 2 (the only size this program uses), rand_range
draws exactly one u32 - the rejection loop never runs because 2 divides
2^32 - and returns its top bit plus the lower bound. -/
theorem rand_range_two (r : Rand32) (lo fuel : Nat) :
    rand_range r lo (lo + 2) fuel =
      (((rand_u32 r).1 * 2) >>> 32 + lo, (rand_u32 r).2) := by
  simp only [rand_range]
  have hrs : (lo + 2 - lo) % U32 = 2 := by
    have : lo + 2 - lo = 2 := by omega
    rw [this]
    norm_num [U32]
  rw [hrs]
  have hthr : ((U32 - 2 % U32) % U32) % 2 = 0 := by norm_num [U32]
  rw [hthr, rr_loop_thr0]
  split <;> rfl

/-- The wave-size draw is in [lo, lo + 2). -/
theorem rand_range_two_bounds (r : Rand32) (lo fuel : Nat) :
    lo ≤ (rand_range r lo (lo + 2) fuel).1 ∧
      (rand_range r lo (lo + 2) fuel).1 < lo + 2 := by
  rw [rand_range_two]
  constructor
  · omega
  · have hu := rand_u32_lt r
    have hm : (rand_u32 r).1 * 2 < 2 ^ 33 := by
      have : U32 = 2 ^ 32 := rfl
      omega
    have : ((rand_u32 r).1 * 2) >>> 32 < 2 := by
      rw [Nat.shiftRight_eq_div_pow]
      omega
    omega

/-- The tick prefix through firing never touches the RNG, the wave
cooldown, the rocket list or the level timer's effect on them. -/
theorem afterFire_proj (s : MainState) :
    (afterFire s).rng = s.rng ∧
    (afterFire s).rocket_delay = s.rocket_delay ∧
    (afterFire s).rockets = s.rockets ∧
    (afterFire s).screen_width = s.screen_width ∧
    (afterFire s).screen_height = s.screen_height := by
  simp only [afterFire, fire_interceptor]
  split <;> split <;> simp

/-- The tick prefix through firing updates the level exactly as the
level-timer step dictates. -/
theorem afterFire_level (s : MainState) : (afterFire s).level = level_after s := by
  simp only [afterFire, fire_interceptor, level_after]
  split <;> split <;> simp_all

/-- When the wave cooldown has not expired, the tick still performs the
wave-size draw (advancing the RNG by exactly one u32 step) but spawns no
rockets. -/
theorem afterAging_no_spawn (vfa : ℚ → ℚ × ℚ) (s : MainState)
    (h : ¬ s.rocket_delay - 1 / 60 ≤ 0) :
    (afterAging vfa s).rng = (rand_u32 s.rng).2 ∧
    (afterAging vfa s).rockets = s.rockets.map (fun r => rocket_move vfa r (1 / 60)) := by
  obtain ⟨hrng, hrd, hrk, hw, hh⟩ := afterFire_proj s
  have h32 : 3 + (afterFire s).level = (1 + (afterFire s).level) + 2 := by omega
  simp only [afterAging]
  rw [hrd]
  rw [if_neg h]
  rw [hrng, h32, rand_range_two]
  rw [hrk]
  exact ⟨rfl, rfl⟩

/-- Without a spawn, the tick advances the RNG exactly one u32 step and
adds no rockets. -/
theorem tick_no_spawn (vfa : ℚ → ℚ × ℚ) (s : MainState)
    (h : ¬ s.rocket_delay - 1 / 60 ≤ 0) :
    (tick vfa s).rng = (rand_u32 s.rng).2 ∧
    (tick vfa s).rockets.length ≤ s.rockets.length := by
  have hrng : (tick vfa s).rng = (afterAging vfa s).rng := by
    rw [tick_decomp]
    rfl
  constructor
  · rw [hrng]
    exact (afterAging_no_spawn vfa s h).1
  · have h1 : (tick vfa s).rockets =
        ((handle_interceptions (handle_border_collisions (afterAging vfa s))).rockets).filter
          (fun r => decide (0 < r.life)) := by
      rw [tick_decomp]
      rfl
    rw [h1]
    have step1 := List.length_filter_le (fun r : Actor => decide (0 < r.life))
      (handle_interceptions (handle_border_collisions (afterAging vfa s))).rockets
    have step2 : (handle_interceptions (handle_border_collisions (afterAging vfa s))).rockets.length
        = (handle_border_collisions (afterAging vfa s)).rockets.length := by
      rw [handle_interceptions_eq]; simp
    have step3 : (handle_border_collisions (afterAging vfa s)).rockets.length
        = (afterAging vfa s).rockets.length := by
      rw [handle_border_collisions_eq]; simp
    have step4 : (afterAging vfa s).rockets.length = s.rockets.length := by
      rw [(afterAging_no_spawn vfa s h).2]; simp
    omega

/-- C10: every tick draws one wave-size value from the RNG over
[1+level, 3+level) - a range of size 2, for which the Lemire rejection
loop never runs, so the draw is exactly one PCG32 step - even when the
spawn cooldown has not expired and no wave is created; hence the RNG
state advances once per tick regardless of spawning. -/
theorem rng_draw_every_tick :
    (∀ (r : Rand32) (lo fuel : Nat), rand_range r lo (lo + 2) fuel =
       (((rand_u32 r).1 * 2) >>> 32 + lo, (rand_u32 r).2)) ∧
    (∀ (r : Rand32) (lo fuel : Nat), lo ≤ (rand_range r lo (lo + 2) fuel).1 ∧
       (rand_range r lo (lo + 2) fuel).1 < lo + 2) ∧
    (∀ r : Rand32, ((rand_u32 r).2).state = (r.state * PCG32_MUL + r.inc) % U64) ∧
    (∀ vfa s, ¬ s.rocket_delay - 1 / 60 ≤ 0 →
       (tick vfa s).rng = (rand_u32 s.rng).2 ∧
       (tick vfa s).rockets.length ≤ s.rockets.length) :=
  ⟨rand_range_two, rand_range_two_bounds, fun _ => rfl, tick_no_spawn⟩

/-- Witness for C10 on a concrete idle-cooldown state. -/
theorem rng_draw_every_tick_witness :
    (tick vfaDown c3TickState).rng = (rand_u32 c3TickState.rng).2 ∧
    (tick vfaDown c3TickState).rockets.length ≤ c3TickState.rockets.length :=
  rng_draw_every_tick.2.2.2 vfaDown c3TickState
    (by norm_num [c3TickState, baseState])

/-- The firing step: a shot is appended iff the fire flag is set and the
decremented timeout is at or below zero, and firing resets the timeout. -/
theorem afterFire_fire (s : MainState) :
    (afterFire s).interceptors =
      s.interceptors ++ (if fire_cond s then [player_shot s] else []) ∧
    (afterFire s).shot_timeout =
      if fire_cond s then SHOT_TIMEOUT else s.shot_timeout - 1 / 60 := by
  simp only [afterFire, fire_interceptor]
  simp only [apply_ite MainState.shot_timeout, apply_ite MainState.input,
    apply_ite MainState.interceptors, apply_ite MainState.player,
    apply_ite MainState.screen_width, apply_ite MainState.screen_height]
  simp only [ite_self]
  by_cases hc : s.input.fire = true ∧ s.shot_timeout - 1 / 60 ≤ 0
  · have hc' : fire_cond s := hc
    simp only [fire_cond] at hc'
    split <;> simp_all [fire_cond, player_shot]
  · have hc' : ¬ fire_cond s := hc
    split
    · rename_i hcontra
      exact absurd hcontra hc
    · simp_all [fire_cond, player_shot]

/-- Nothing after the firing step touches the shot timeout. -/
theorem afterAging_shot_timeout (vfa : ℚ → ℚ × ℚ) (s : MainState) :
    (afterAging vfa s).shot_timeout = (afterFire s).shot_timeout := by
  simp only [afterAging, MainState.create_rockets]
  simp [apply_ite MainState.shot_timeout]

/-- The shot timeout at the end of a tick is what the firing step left. -/
theorem tick_shot_timeout (vfa : ℚ → ℚ × ℚ) (s : MainState) :
    (tick vfa s).shot_timeout = (afterFire s).shot_timeout := by
  rw [tick_decomp]
  exact afterAging_shot_timeout vfa s

/-- Lower bound on the shot timeout along any run of ticks with arbitrary
inputs: each tick lowers it by at most 1/60 and a fire resets it to 1/2. -/
theorem runInputs_timeout_lb (vfa : ℚ → ℚ × ℚ) (inps : List InputState) (s : MainState) :
    min SHOT_TIMEOUT s.shot_timeout - (inps.length : ℚ) * (1 / 60) ≤
      (runInputs vfa s inps).shot_timeout := by
  induction inps generalizing s with
  | nil =>
    simp only [runInputs, List.length_nil]
    have := min_le_right SHOT_TIMEOUT s.shot_timeout
    push_cast
    linarith
  | cons i is ih =>
    simp only [runInputs]
    have hstep : (tick vfa { s with input := i }).shot_timeout =
        if fire_cond { s with input := i } then SHOT_TIMEOUT
        else s.shot_timeout - 1 / 60 := by
      rw [tick_shot_timeout]
      exact (afterFire_fire { s with input := i }).2
    have hlb := ih (tick vfa { s with input := i })
    rw [hstep] at hlb
    have hmin1 := min_le_left SHOT_TIMEOUT s.shot_timeout
    have hmin2 := min_le_right SHOT_TIMEOUT s.shot_timeout
    have hst : (0 : ℚ) < SHOT_TIMEOUT := by norm_num [SHOT_TIMEOUT]
    by_cases hc : fire_cond { s with input := i }
    · rw [if_pos hc] at hlb
      simp only [min_self] at hlb
      simp only [List.length_cons]
      push_cast
      linarith
    · rw [if_neg hc] at hlb
      have hmm : min SHOT_TIMEOUT s.shot_timeout - 1 / 60 ≤
          min SHOT_TIMEOUT (s.shot_timeout - 1 / 60) := by
        rcases min_cases SHOT_TIMEOUT (s.shot_timeout - 1 / 60) with ⟨hm, _⟩ | ⟨hm, _⟩
        · rw [hm]; linarith
        · rw [hm]; linarith
      simp only [List.length_cons]
      push_cast
      linarith

/-- C9: a tick appends a new interceptor at the player's current
(post-movement) position iff the fire flag is set and the decremented
shot timeout is at or below zero; firing resets the timeout to
SHOT_TIMEOUT = 0.5 s, the tick never changes it afterwards, and after a
firing tick no tick among the next 29 can fire again, whatever inputs
arrive - so two player-fired interceptors are at least 30 ticks = 0.5
simulated seconds apart. -/
theorem fire_iff_and_min_separation :
    (∀ s : MainState, (afterFire s).interceptors =
       s.interceptors ++ (if fire_cond s then [player_shot s] else [])) ∧
    (∀ s : MainState, (afterFire s).shot_timeout =
       if fire_cond s then SHOT_TIMEOUT else s.shot_timeout - 1 / 60) ∧
    (∀ vfa s, (tick vfa s).shot_timeout = (afterFire s).shot_timeout) ∧
    (∀ vfa (s : MainState) (inps : List InputState) (j : InputState),
       fire_cond s → inps.length ≤ 28 →
         ¬ fire_cond { runInputs vfa (tick vfa s) inps with input := j }) := by
  refine ⟨fun s => (afterFire_fire s).1, fun s => (afterFire_fire s).2,
    tick_shot_timeout, ?_⟩
  intro vfa s inps j hf hlen hcon
  have htick : (tick vfa s).shot_timeout = SHOT_TIMEOUT := by
    rw [tick_shot_timeout, (afterFire_fire s).2, if_pos hf]
  have hlb := runInputs_timeout_lb vfa inps (tick vfa s)
  rw [htick, min_self] at hlb
  have hlen' : (inps.length : ℚ) ≤ 28 := by exact_mod_cast hlen
  have hc2 : (runInputs vfa (tick vfa s) inps).shot_timeout - 1 / 60 ≤ 0 := hcon.2
  have hst : SHOT_TIMEOUT = 1 / 2 := by norm_num [SHOT_TIMEOUT]
  rw [hst] at hlb
  linarith

/-- Witness for C9's separation at a concrete firing state. -/
theorem fire_min_separation_witness :
    ¬ fire_cond { runInputs vfaDown (tick vfaDown c9FireState) [] with
        input := (⟨0, 0, true⟩ : InputState) } :=
  fire_iff_and_min_separation.2.2.2 vfaDown c9FireState [] ⟨0, 0, true⟩
    (by norm_num [fire_cond, c9FireState, baseState]) (by norm_num)

/-! ## C7: spawn determinism -/

/-- create_rockets reads nothing of the state but the RNG: states agreeing
on the RNG produce the same wave and the same new RNG. -/
theorem create_rockets_rng_only (s1 s2 : MainState) (h : s1.rng = s2.rng)
    (num : Nat) (x y : ℚ) :
    (s1.create_rockets num x y).1 = (s2.create_rockets num x y).1 ∧
    ((s1.create_rockets num x y).2).rng = ((s2.create_rockets num x y).2).rng := by
  unfold MainState.create_rockets
  rw [h]
  exact ⟨rfl, rfl⟩

/-- C7: spawning is deterministic in the RNG state alone: two states with
equal RNG state (everything else arbitrary) fed the same sequence of
create_rockets calls with identical arguments produce identical rocket
start positions and headings, wave for wave. -/
theorem spawn_deterministic (calls : List (Nat × ℚ × ℚ)) (s1 s2 : MainState)
    (h : s1.rng = s2.rng) : spawn_seq s1 calls = spawn_seq s2 calls := by
  induction calls generalizing s1 s2 with
  | nil => rfl
  | cons c cs ih =>
    simp only [spawn_seq]
    have h1 := create_rockets_rng_only s1 s2 h c.1 c.2.1 c.2.2
    rw [h1.1, ih _ _ h1.2]

/-- Witness for C7: same RNG, different score and rockets, same waves. -/
theorem spawn_deterministic_witness :
    spawn_seq baseState [(2, 1280, 760)] =
      spawn_seq { baseState with score := 999, rockets := [create_rocket] }
        [(2, 1280, 760)] :=
  spawn_deterministic [(2, 1280, 760)] baseState
    { baseState with score := 999, rockets := [create_rocket] } rfl

/-! ## C4: the quit signal does not stop accumulated ticks -/

/-- Characterization of the update loop: all n accumulated ticks run
whatever the quit flag says, and the flag is raised exactly when some tick
ends with the player's life at or below zero. -/
theorem runTicks_char (vfa : ℚ → ℚ × ℚ) :
    ∀ (n : Nat) (s : MainState) (q : Bool),
      (runTicks vfa n s q).1 = tickN vfa n s ∧
      ((runTicks vfa n s q).2 = true ↔
        q = true ∨ ∃ k, k < n ∧ (tickN vfa (k + 1) s).player.life ≤ 0) := by
  intro n
  induction n with
  | zero =>
    intro s q
    simp [runTicks, tickN]
  | succ n ih =>
    intro s q
    simp only [runTicks]
    obtain ⟨ih1, ih2⟩ := ih (tick vfa s) (q || decide ((tick vfa s).player.life ≤ 0))
    refine ⟨ih1, ?_⟩
    rw [ih2]
    simp only [Bool.or_eq_true, decide_eq_true_eq]
    constructor
    · rintro ((hq | hd) | ⟨k, hk, hl⟩)
      · exact Or.inl hq
      · exact Or.inr ⟨0, Nat.succ_pos n, hd⟩
      · exact Or.inr ⟨k + 1, by omega, hl⟩
    · rintro (hq | ⟨k, hk, hl⟩)
      · exact Or.inl (Or.inl hq)
      · cases k with
        | zero => exact Or.inl (Or.inr hl)
        | succ k => exact Or.inr ⟨k, by omega, hl⟩

/-- C4 amended: the loop body signals request_quit the instant a tick ends
with life at or below zero, but the signal does not break the while loop:
every accumulated tick of the frame still executes, and the final state is
the n-fold tick iterate regardless of when the flag was raised. -/
theorem quit_signal_does_not_stop_ticks :
    (∀ vfa (n : Nat) (s : MainState) (q : Bool),
       (runTicks vfa n s q).1 = tickN vfa n s) ∧
    (∀ vfa (n : Nat) (s : MainState) (q : Bool),
       ((runTicks vfa n s q).2 = true ↔
         q = true ∨ ∃ k, k < n ∧ (tickN vfa (k + 1) s).player.life ≤ 0)) :=
  ⟨fun vfa n s q => (runTicks_char vfa n s q).1,
   fun vfa n s q => (runTicks_char vfa n s q).2⟩

/-! ## Concrete tick evaluations -/

/-- One wave-size draw on the concrete RNG state (0, 1). -/
theorem rr01 : rand_range ⟨0, 1⟩ 2 4 rrFuel = (2, ⟨1, 1⟩) := by decide

/-- One wave-size draw on the concrete RNG state (1, 1). -/
theorem rr11 : rand_range ⟨1, 1⟩ 2 4 rrFuel = (2, ⟨6364136223846793006, 1⟩) := by decide

/-- One tick on the C3 witness state: its single interceptor, aged. -/
theorem c3_tick_inters : (tick vfaDown c3TickState).interceptors = [c3Aged] := by
  norm_num [tick, cursor_move, check_cursor_bound, fire_interceptor,
    MainState.create_rockets, create_rockets_list, rocket_move, interceptor_elapse,
    handle_border_collisions, border_step, handle_interceptions, intercept_fold,
    hits, vfaDown, rr01, c3TickState, c3Inter, c3Aged, baseState,
    create_player_cursor, create_interceptor, create_rocket,
    GROUND_HEIGHT, CURSOR_VEL, CURSOR_WIDTH, CURSOR_HEIGHT, ROCKET_LIFE,
    GROUND_LIFE, INTERCEPTOR_BASE_RADIUS, INTERCEPTOR_PERIOD, ROCKET_VEL,
    ROCKET_DELAY, SHOT_TIMEOUT, LEVEL_TIME]

/-- Witness for C3's tick-level invariant at a concrete aged interceptor. -/
theorem radius_pure_in_elapsed_witness :
    c3Aged.radius = radius_curve c3Aged.elapsed ∨
      (c3Aged.radius = INTERCEPTOR_BASE_RADIUS ∧ c3Aged.elapsed = INTERCEPTOR_PERIOD) :=
  radius_pure_in_elapsed.2.2.2.2 vfaDown c3TickState c3Aged
    (by rw [c3_tick_inters]; exact List.mem_singleton.mpr rfl)

/-- C4 counterexample: with two accumulated ticks, the first tick drops
the player's life to 0 and raises the quit signal, yet the second tick
still executes and changes the state (life reaches -1); under the claim
("no further simulation ticks execute afterward") the life would have
stayed at 0. -/
theorem quit_then_tick_still_runs_cx :
    (runTicks vfaDown 1 c4State false).2 = true ∧
    (runTicks vfaDown 1 c4State false).1.player.life = 0 ∧
    (runTicks vfaDown 2 c4State false).1.player.life = -1 := by
  refine ⟨?_, ?_, ?_⟩ <;>
    norm_num [runTicks, tick, cursor_move, check_cursor_bound, fire_interceptor,
      MainState.create_rockets, create_rockets_list, rocket_move, interceptor_elapse,
      handle_border_collisions, border_step, handle_interceptions, intercept_fold,
      hits, vfaDown, rr01, rr11, c4State, c4RocketA, c4RocketB, baseState,
      create_player_cursor, create_interceptor, create_rocket,
      GROUND_HEIGHT, CURSOR_VEL, CURSOR_WIDTH, CURSOR_HEIGHT, ROCKET_LIFE,
      GROUND_LIFE, INTERCEPTOR_BASE_RADIUS, INTERCEPTOR_PERIOD, ROCKET_VEL,
      ROCKET_DELAY, SHOT_TIMEOUT, LEVEL_TIME]
